import Mathlib

/-!
Shallow embedding of the j-queue-sdk-web SDK (src/src/index.ts and
src/src/types.ts).  The static class `ConnectionJQueueSdkWeb` keeps a
mutable `ConnectionState`; we model it as a `Sess` record and every
method as a pure function `Sess → Sess × List Effect` (plus a Bool flag
for an exception escaping a status listener).  Timers and popup DOM
nodes are modelled as explicit lists held in the state, so that
"at most one timer / popup node exists" is a real invariant and not a
consequence of the model's types.  JavaScript `undefined` is `none`;
JS string truthiness (empty string falsy) is `jsTruthyStr`.
-/

namespace JQueueSdk

/-- Numeric values of the `OnlineQueueStatus` enum in src/src/types.ts.
The enum declares only WAITING = 1, ACTIVE = 2, EMPTY = 3; there is no
`EXPIRED` member, so the reference `OnlineQueueStatus.EXPIRED` in
index.ts evaluates to `undefined` at runtime (modelled as `none`). -/
def WAITING : ℚ := 1

def ACTIVE : ℚ := 2

def EMPTY : ℚ := 3

/-- `CONFIG.TTL_INTERVAL` (ms). -/
def TTL_INTERVAL : ℚ := 2000

/-- `CONFIG.MAX_TTL_INTERVAL` (ms). -/
def MAX_TTL_INTERVAL : ℚ := 60000

/-- `CONFIG.CHECK_DISCONNECTED_INTERVAL` (ms). -/
def CHECK_DISCONNECTED_INTERVAL : ℚ := 30000

/-- A status payload as received from the server (`StatusResponse` in
index.ts).  Every field may be absent (`undefined`) at runtime, e.g. for
the payload `{}`. -/
structure StatusResponse where
  uuid : Option String
  position : Option ℚ
  status : Option ℚ
deriving DecidableEq, Repr

inductive Lang
  | en
  | ko
deriving DecidableEq, Repr

/-- `popupConfig.content`: either a static HTML string or a function of
the queue position. -/
inductive ContentSpec where
  | str (s : String)
  | fn (f : Option ℚ → String)

structure PopupCfg where
  content : Option ContentSpec := none
  style : Option String := none
  language : Option Lang := none
  textColor : Option String := none
  isShowLoadingOnConnect : Bool := false

/-- A popup `div` appended to `document.body`; `id` models DOM node
identity. -/
structure PopupNode where
  id : Nat
  html : String
  style : String
deriving DecidableEq, Repr

inductive TimerKind
  | statusEmission
  | checkDisconnected
deriving DecidableEq, Repr

/-- A live `setInterval` timer; `id` models the runtime handle. -/
structure TimerInst where
  id : Nat
  kind : TimerKind
  interval : ℚ
deriving DecidableEq, Repr

/-- A registered status listener.  `ok st = false` means the callback
throws when invoked with `st`. -/
structure Listener where
  id : Nat
  ok : StatusResponse → Bool

/-- Observable side effects, in program order. -/
inductive Effect where
  | logInfo (msg : String)
  | logWarn (msg : String)
  | logError (msg : String)
  | alertMsg (msg : String)
  | reload
  | beacon (url : String) (payloadUuid : String)
  | timerStart (t : TimerInst)
  | timerCleared (t : TimerInst)
  | storageSet (key : String) (val : String)
  | storageRemove (key : String)
  | invoke (listenerId : Nat) (st : StatusResponse)
  | socketClosed
deriving DecidableEq, Repr

/-- The SDK's mutable state: the fields of `ConnectionState` together
with the static fields `ttlInterval`, `statusListeners`, the
`currentTtlInterval` closure cell of `setupSocket`, and the DOM / timer
runtime (`domPopups`, `activeTimers`, freshness counters). -/
@[ext]
structure Sess where
  socket : Option Bool := none        -- some c: a socket exists, c = connected
  popupEl : Option PopupNode := none
  isNavigating : Bool := false
  storageTokenKey : Option String := none
  storageConnectKey : Option String := none
  queueStatus : Option StatusResponse := none
  apiUrl : Option String := none
  ttlInterval : Option TimerInst := none
  statusListeners : List Listener := []
  currentTtl : ℚ := TTL_INTERVAL      -- the `currentTtlInterval.value` cell
  beforeUnload : Bool := false        -- window.onbeforeunload installed?
  domPopups : List PopupNode := []    -- popup nodes attached to document.body
  activeTimers : List TimerInst := [] -- intervals currently scheduled
  nextNodeId : Nat := 0
  nextTimerId : Nat := 0

/-- JS truthiness of an optional string: `undefined`, `null` and `''`
are falsy. -/
def jsTruthyStr : Option String → Bool
  | none => false
  | some s => s ≠ ""

/-- JS `x >= y` where `x` may be `undefined` (`undefined >= y` is
`NaN >= y`, i.e. false). -/
def jsGe : Option ℚ → ℚ → Bool
  | none, _ => false
  | some x, y => x ≥ y

/-- String stored by `sessionStorage.setItem(key, uuid)` when `uuid` is
`undefined`. -/
def jsStringOfOpt : Option String → String
  | none => "undefined"
  | some s => s

/-- `CONFIG.STYLES.POPUP`. -/
def POPUP_STYLE : String :=
  "position: fixed; inset: 0; width: 100%; height: 100%; background: #fff; z-index: 10000; display: flex; justify-content: center; align-items: center; font-size: 28px;"

/-- Message shown by the EMPTY branch of `handleStatusUpdate`. -/
def emptyAlertText (lang : Option Lang) : String :=
  if lang = some Lang.en then "Connect key does not exist!"
  else "연결 키가 존재하지 않습니다!"

/-- Message shown by the (fall-through) EXPIRED branch of
`handleStatusUpdate`. -/
def expiredAlertText (lang : Option Lang) : String :=
  if lang = some Lang.en then
    "The request was not processed due to a timeout.\nPlease try again later."
  else "대기 시간 초과로 인해 처리되지 않았습니다. \n잠시 후 다시 시도해 주세요."

/-- `getDefaultPopupContent`: the default full-screen popup HTML for a
WAITING position (text per language; interpolated position). -/
def getDefaultPopupContent (position : Option ℚ) (language : Lang) (cfg : PopupCfg) : String :=
  let textColor := cfg.textColor.getD "#276bff"
  let m3 := if language = Lang.en then "Queue Number" else "대기순번"
  let posTxt := match position with
    | none => "undefined"
    | some q => toString q
  "<div><p style=\"color: " ++ textColor ++ ";\">queue-messages</p><div>" ++ m3 ++ " " ++ posTxt ++ "</div></div>"

/-- `removePopup`: `this.state.popupEl?.remove(); this.state.popupEl = null`. -/
def removePopup (s : Sess) : Sess :=
  match s.popupEl with
  | none => { s with popupEl := none }
  | some p => { s with domPopups := s.domPopups.erase p, popupEl := none }

/-- `createPopup`: always removes the previous popup first, then appends
a fresh `div#__jqueue_popup` to `document.body` and tracks it. -/
def createPopup (s : Sess) (html : String) (style? : Option String) : Sess :=
  let s1 := removePopup s
  let node : PopupNode := ⟨s1.nextNodeId, html, style?.getD POPUP_STYLE⟩
  { s1 with domPopups := s1.domPopups ++ [node], popupEl := some node,
            nextNodeId := s1.nextNodeId + 1 }

/-- `toggleNavigation(block)`: no-op when `isNavigating == block`,
otherwise installs/removes the `onbeforeunload` handler. -/
def toggleNavigation (s : Sess) (block : Bool) : Sess :=
  if s.isNavigating = block then s
  else { s with beforeUnload := block, isNavigating := block }

/-- `sendLeaveRequest`: beacon `{uuid}` to `apiUrl + '/leave'` unless
`apiUrl` or `queueStatus?.uuid` is falsy. -/
def sendLeaveRequest (s : Sess) : List Effect :=
  let uuidOpt := s.queueStatus.bind (fun q => q.uuid)
  if jsTruthyStr s.apiUrl && jsTruthyStr uuidOpt then
    [Effect.beacon (s.apiUrl.getD "" ++ "/leave") (uuidOpt.getD "")]
  else []

/-- `clearInterval` (the private static method): cancels the tracked
interval, if any, and nulls the handle. -/
def clearIntervalOp (s : Sess) : Sess × List Effect :=
  match s.ttlInterval with
  | none => (s, [])
  | some t =>
      ({ s with activeTimers := s.activeTimers.erase t, ttlInterval := none },
       [Effect.timerCleared t])

/-- `getAdjustedPollInterval(position)`:
`position >= 100 ? TTL_INTERVAL + (position / 100) * 1000 : TTL_INTERVAL`,
capped at `MAX_TTL_INTERVAL`.  The division is JS numeric division (no
floor). -/
def getAdjustedPollInterval (position : Option ℚ) : ℚ :=
  let pollTime :=
    if jsGe position 100 then TTL_INTERVAL + (position.getD 0 / 100) * 1000
    else TTL_INTERVAL
  if pollTime > MAX_TTL_INTERVAL then MAX_TTL_INTERVAL else pollTime

/-- `startStatusEmission(interval)`: clears the previous interval, then
schedules a fresh `online-queue:status` emission interval. -/
def startStatusEmission (s : Sess) (interval : ℚ) : Sess × List Effect :=
  let (s1, e1) := clearIntervalOp s
  let t : TimerInst := ⟨s1.nextTimerId, TimerKind.statusEmission, interval⟩
  ({ s1 with ttlInterval := some t, activeTimers := s1.activeTimers ++ [t],
             nextTimerId := s1.nextTimerId + 1 },
   e1 ++ [Effect.timerStart t])

/-- `startCheckDisconnectedEmission()`: clears the previous interval,
then schedules the 30000 ms `online-queue:check-disconnected` interval. -/
def startCheckDisconnectedEmission (s : Sess) : Sess × List Effect :=
  let (s1, e1) := clearIntervalOp s
  let t : TimerInst := ⟨s1.nextTimerId, TimerKind.checkDisconnected, CHECK_DISCONNECTED_INTERVAL⟩
  ({ s1 with ttlInterval := some t, activeTimers := s1.activeTimers ++ [t],
             nextTimerId := s1.nextTimerId + 1 },
   e1 ++ [Effect.timerStart t])

/-- `statusListeners.forEach((listener) => listener(st))`: listeners run
in registration order; there is no try/catch, so the first listener that
throws aborts the loop and the exception escapes (second component
`true`). -/
def notifyListeners : List Listener → StatusResponse → List Effect × Bool
  | [], _ => ([], false)
  | l :: ls, st =>
      if l.ok st then
        let r := notifyListeners ls st
        (Effect.invoke l.id st :: r.1, r.2)
      else ([Effect.invoke l.id st], true)

/-- `updateQueueStatus({status, position, uuid})`: unconditionally
overwrites `state.queueStatus`, persists the uuid under
`storageTokenKey` when set, then notifies the listeners.  The Bool is
true when a listener exception escaped. -/
def updateQueueStatus (s : Sess) (data : StatusResponse) : Sess × List Effect × Bool :=
  let s1 := { s with queueStatus := some data }
  let storeEffs := match s1.storageTokenKey with
    | some k => [Effect.storageSet k (jsStringOfOpt data.uuid)]
    | none => []
  let r := notifyListeners s1.statusListeners data
  (s1, (storeEffs ++ r.1, r.2))

/-- `handleStatusUpdate(data, popupConfig, currentTtlInterval)`.
`data = none` models the JS value `null`/`undefined` (the `!data`
guard); any non-null object — even `{}` — passes the guard.  The
`switch (status)` compares with strict equality against WAITING = 1,
ACTIVE = 2, EMPTY = 3 and `OnlineQueueStatus.EXPIRED = undefined`;
the EMPTY case has no `break`, so it falls through into the EXPIRED
case (second alert + `window.location.reload()`).  The Bool result is
true when a listener exception escaped (aborting the switch). -/
def handleStatusUpdate (s : Sess) (data : Option StatusResponse) (popupCfg : PopupCfg) :
    Sess × List Effect × Bool :=
  match data with
  | none => (s, ([Effect.logWarn "Invalid status response received"], false))
  | some d =>
      let u := updateQueueStatus s d
      let s1 := u.1
      let effs := u.2.1
      if u.2.2 then (s1, (effs, true))
      else if d.status = some ACTIVE then
        let r := startCheckDisconnectedEmission s1
        let s2 := removePopup r.1
        let s3 := toggleNavigation s2 false
        (s3, (effs ++ r.2, false))
      else if d.status = some WAITING then
        let newTtl := getAdjustedPollInterval d.position
        let r :=
          if newTtl ≠ s1.currentTtl then
            startStatusEmission { s1 with currentTtl := newTtl } newTtl
          else (s1, [])
        let content := match popupCfg.content with
          | some (ContentSpec.fn f) => f d.position
          | some (ContentSpec.str c) => c
          | none => getDefaultPopupContent d.position (popupCfg.language.getD Lang.ko) popupCfg
        let s2 := createPopup r.1 content popupCfg.style
        let s3 := toggleNavigation s2 true
        (s3, (effs ++ r.2, false))
      else if d.status = some EMPTY then
        let e2 := [Effect.alertMsg (emptyAlertText popupCfg.language)]
        let r := clearIntervalOp s1
        -- missing `break`: execution continues into the EXPIRED case
        let e4 := [Effect.alertMsg (expiredAlertText popupCfg.language), Effect.reload]
        (r.1, (effs ++ e2 ++ r.2 ++ e4, false))
      else if d.status = none then
        -- `case OnlineQueueStatus.EXPIRED` compares against `undefined`
        (s1, (effs ++ [Effect.alertMsg (expiredAlertText popupCfg.language), Effect.reload], false))
      else
        (s1, (effs, false))

/-- `cleanup()`: remove storage keys, clear the interval, remove the
popup, unblock navigation, reset every `ConnectionState` field and
empty the listener registry.  The `currentTtlInterval` closure cell and
the freshness counters live outside `ConnectionState` and survive. -/
def cleanup (s : Sess) : Sess × List Effect :=
  let e1 := match s.storageTokenKey with
    | some k => [Effect.storageRemove k]
    | none => []
  let e2 := match s.storageConnectKey with
    | some k => [Effect.storageRemove k]
    | none => []
  let r := clearIntervalOp s
  let s1 := removePopup r.1
  let s2 := toggleNavigation s1 false
  ({ s2 with socket := none, popupEl := none, isNavigating := false,
             storageTokenKey := none, storageConnectKey := none,
             queueStatus := none, apiUrl := none, statusListeners := [] },
   e1 ++ e2 ++ r.2)

/-- `disconnect()`: leave beacon only when the socket is connected and
`queueStatus?.uuid` is truthy; then `socket?.disconnect()`; then
`cleanup()`. -/
def disconnect (s : Sess) : Sess × List Effect :=
  let leaveEffs :=
    if (s.socket = some true) && jsTruthyStr (s.queueStatus.bind (fun q => q.uuid)) then
      sendLeaveRequest s
    else []
  let sockEffs := if s.socket.isSome then [Effect.socketClosed] else []
  let s1 := { s with socket := s.socket.map (fun _ => false) }
  let r := cleanup s1
  (r.1, leaveEffs ++ sockEffs ++ r.2)

/-- `getLoadingPopupContent`: loading popup HTML (no position). -/
def getLoadingPopupContent (language : Lang) (cfg : PopupCfg) : String :=
  let textColor := cfg.textColor.getD "#276bff"
  let loading := if language = Lang.en then "Connecting" else "연결 중"
  "<div><div style=\"color: " ++ textColor ++ ";\">" ++ loading ++ "</div></div>"

/-- The configuration subset of `InitConfig` that the model tracks. -/
structure InitCfg where
  apiUrl : String := ""
  storageTokenKey : String := "queue_token"
  storageConnectKey : String := "queue_connect_key"
  popupCfg : PopupCfg := {}

/-- `init(config)` followed by `setupSocket`: starting from the fresh
module state, record the storage keys and `apiUrl`, optionally show the
loading popup, create the (not yet connected) socket, and initialise the
`currentTtlInterval` closure cell with `getAdjustedPollInterval(0)`. -/
def initSess (cfg : InitCfg) : Sess :=
  let s : Sess := { storageTokenKey := some cfg.storageTokenKey,
                    storageConnectKey := some cfg.storageConnectKey,
                    apiUrl := some cfg.apiUrl }
  let s1 :=
    if cfg.popupCfg.isShowLoadingOnConnect then
      createPopup s (getLoadingPopupContent (cfg.popupCfg.language.getD Lang.ko) cfg.popupCfg) cfg.popupCfg.style
    else s
  { s1 with socket := some false, currentTtl := getAdjustedPollInterval (some 0) }

/-- The socket `connect` handler: the socket is now connected; then
`removePopup()` and `startStatusEmission(currentTtlInterval.value)`. -/
def onConnect (s : Sess) : Sess × List Effect :=
  let s1 := { s with socket := some true }
  let s2 := removePopup s1
  startStatusEmission s2 s2.currentTtl

/-- The socket `disconnect` handler: the socket is no longer connected;
`clearInterval()` (the optional page reload is an external effect). -/
def onSocketDisconnect (s : Sess) : Sess × List Effect :=
  let s1 := { s with socket := s.socket.map (fun _ => false) }
  clearIntervalOp s1

/-- One observable transition of the SDK: a status event, a socket
lifecycle event, a public API call, or a custom-event utility call. -/
inductive Step : Sess → Sess → Prop where
  | status (s : Sess) (d : Option StatusResponse) (pc : PopupCfg) :
      Step s (handleStatusUpdate s d pc).1
  | connected (s : Sess) : Step s (onConnect s).1
  | connectError (s : Sess) : Step s (removePopup s)
  | sockDisconnected (s : Sess) : Step s (onSocketDisconnect s).1
  | discon (s : Sess) : Step s (disconnect s).1
  | addListener (s : Sess) (l : Listener) :
      Step s { s with statusListeners := s.statusListeners ++ [l] }
  | removeListener (s : Sess) (i : Nat) :
      Step s { s with statusListeners := s.statusListeners.filter (fun x => x.id ≠ i) }
  | custCreatePopup (s : Sess) (html : String) (style? : Option String) :
      Step s (createPopup s html style?)
  | custRemovePopup (s : Sess) : Step s (removePopup s)
  | custPreventNav (s : Sess) : Step s (toggleNavigation s true)
  | custAllowNav (s : Sess) : Step s (toggleNavigation s false)

/-- States reachable from some initialisation. -/
inductive Reachable : Sess → Prop where
  | init (cfg : InitCfg) : Reachable (initSess cfg)
  | step {s s' : Sess} : Reachable s → Step s s' → Reachable s'

/-- Runtime-consistency invariant: the scheduled intervals are exactly
the tracked `ttlInterval` handle, and the popup nodes in the DOM are
exactly the tracked `popupEl`. -/
def Inv (s : Sess) : Prop :=
  s.activeTimers = s.ttlInterval.toList ∧ s.domPopups = s.popupEl.toList

lemma clearIntervalOp_spec (s : Sess) (h : s.activeTimers = s.ttlInterval.toList) :
    (clearIntervalOp s).1.activeTimers = [] ∧ (clearIntervalOp s).1.ttlInterval = none ∧
    (clearIntervalOp s).1.domPopups = s.domPopups ∧ (clearIntervalOp s).1.popupEl = s.popupEl ∧
    (clearIntervalOp s).1.nextTimerId = s.nextTimerId ∧
    (clearIntervalOp s).1.currentTtl = s.currentTtl ∧
    (clearIntervalOp s).1.statusListeners = s.statusListeners ∧
    (clearIntervalOp s).1.queueStatus = s.queueStatus := by
  cases hT : s.ttlInterval with
  | none =>
      rw [hT] at h
      simp [clearIntervalOp, hT, h]
  | some t => simp [clearIntervalOp, hT, h]

lemma startStatusEmission_spec (s : Sess) (i : ℚ) (h : s.activeTimers = s.ttlInterval.toList) :
    (startStatusEmission s i).1.activeTimers = [⟨s.nextTimerId, TimerKind.statusEmission, i⟩] ∧
    (startStatusEmission s i).1.ttlInterval = some ⟨s.nextTimerId, TimerKind.statusEmission, i⟩ ∧
    (startStatusEmission s i).1.domPopups = s.domPopups ∧
    (startStatusEmission s i).1.popupEl = s.popupEl := by
  obtain ⟨h1, h2, h3, h4, h5, -⟩ := clearIntervalOp_spec s h
  simp [startStatusEmission, h1, h2, h3, h4, h5]

lemma startCheckDisconnectedEmission_spec (s : Sess)
    (h : s.activeTimers = s.ttlInterval.toList) :
    (startCheckDisconnectedEmission s).1.activeTimers =
      [⟨s.nextTimerId, TimerKind.checkDisconnected, CHECK_DISCONNECTED_INTERVAL⟩] ∧
    (startCheckDisconnectedEmission s).1.ttlInterval =
      some ⟨s.nextTimerId, TimerKind.checkDisconnected, CHECK_DISCONNECTED_INTERVAL⟩ ∧
    (startCheckDisconnectedEmission s).1.domPopups = s.domPopups ∧
    (startCheckDisconnectedEmission s).1.popupEl = s.popupEl := by
  obtain ⟨h1, h2, h3, h4, h5, -⟩ := clearIntervalOp_spec s h
  simp [startCheckDisconnectedEmission, h1, h2, h3, h4, h5]

lemma removePopup_spec (s : Sess) (h : s.domPopups = s.popupEl.toList) :
    (removePopup s).domPopups = [] ∧ (removePopup s).popupEl = none ∧
    (removePopup s).activeTimers = s.activeTimers ∧
    (removePopup s).ttlInterval = s.ttlInterval ∧
    (removePopup s).nextNodeId = s.nextNodeId := by
  cases hP : s.popupEl with
  | none =>
      rw [hP] at h
      simp [removePopup, hP, h]
  | some p => simp [removePopup, hP, h]

lemma createPopup_spec (s : Sess) (html : String) (style? : Option String)
    (h : s.domPopups = s.popupEl.toList) :
    (createPopup s html style?).domPopups =
      [⟨(removePopup s).nextNodeId, html, style?.getD POPUP_STYLE⟩] ∧
    (createPopup s html style?).popupEl =
      some ⟨(removePopup s).nextNodeId, html, style?.getD POPUP_STYLE⟩ ∧
    (createPopup s html style?).activeTimers = s.activeTimers ∧
    (createPopup s html style?).ttlInterval = s.ttlInterval := by
  obtain ⟨h1, h2, h3, h4, -⟩ := removePopup_spec s h
  simp [createPopup, h1, h2, h3, h4]

lemma toggleNavigation_frame (s : Sess) (b : Bool) :
    (toggleNavigation s b).activeTimers = s.activeTimers ∧
    (toggleNavigation s b).ttlInterval = s.ttlInterval ∧
    (toggleNavigation s b).domPopups = s.domPopups ∧
    (toggleNavigation s b).popupEl = s.popupEl ∧
    (toggleNavigation s b).queueStatus = s.queueStatus := by
  unfold toggleNavigation
  split <;> simp

lemma updateQueueStatus_frame (s : Sess) (d : StatusResponse) :
    (updateQueueStatus s d).1.activeTimers = s.activeTimers ∧
    (updateQueueStatus s d).1.ttlInterval = s.ttlInterval ∧
    (updateQueueStatus s d).1.domPopups = s.domPopups ∧
    (updateQueueStatus s d).1.popupEl = s.popupEl ∧
    (updateQueueStatus s d).1.isNavigating = s.isNavigating ∧
    (updateQueueStatus s d).1.beforeUnload = s.beforeUnload ∧
    (updateQueueStatus s d).1.currentTtl = s.currentTtl ∧
    (updateQueueStatus s d).1.statusListeners = s.statusListeners ∧
    (updateQueueStatus s d).1.nextTimerId = s.nextTimerId ∧
    (updateQueueStatus s d).1.queueStatus = some d := by
  simp [updateQueueStatus]

lemma inv_toggleNavigation {s : Sess} (h : Inv s) (b : Bool) : Inv (toggleNavigation s b) := by
  obtain ⟨h1, h2, h3, h4, -⟩ := toggleNavigation_frame s b
  exact ⟨by rw [h1, h2]; exact h.1, by rw [h3, h4]; exact h.2⟩

lemma inv_removePopup {s : Sess} (h : Inv s) : Inv (removePopup s) := by
  obtain ⟨h1, h2, h3, h4, -⟩ := removePopup_spec s h.2
  exact ⟨by rw [h3, h4]; exact h.1, by rw [h1, h2]; simp⟩

lemma inv_createPopup {s : Sess} (h : Inv s) (html : String) (style? : Option String) :
    Inv (createPopup s html style?) := by
  obtain ⟨h1, h2, h3, h4⟩ := createPopup_spec s html style? h.2
  exact ⟨by rw [h3, h4]; exact h.1, by rw [h1, h2]; simp⟩

lemma inv_clearIntervalOp {s : Sess} (h : Inv s) : Inv (clearIntervalOp s).1 := by
  obtain ⟨h1, h2, h3, h4, -⟩ := clearIntervalOp_spec s h.1
  exact ⟨by rw [h1, h2]; simp, by rw [h3, h4]; exact h.2⟩

lemma inv_startStatusEmission {s : Sess} (h : Inv s) (i : ℚ) :
    Inv (startStatusEmission s i).1 := by
  obtain ⟨h1, h2, h3, h4⟩ := startStatusEmission_spec s i h.1
  exact ⟨by rw [h1, h2]; simp, by rw [h3, h4]; exact h.2⟩

lemma inv_startCheckDisconnectedEmission {s : Sess} (h : Inv s) :
    Inv (startCheckDisconnectedEmission s).1 := by
  obtain ⟨h1, h2, h3, h4⟩ := startCheckDisconnectedEmission_spec s h.1
  exact ⟨by rw [h1, h2]; simp, by rw [h3, h4]; exact h.2⟩

lemma inv_updateQueueStatus {s : Sess} (h : Inv s) (d : StatusResponse) :
    Inv (updateQueueStatus s d).1 := by
  obtain ⟨h1, h2, h3, h4, -⟩ := updateQueueStatus_frame s d
  exact ⟨by rw [h1, h2]; exact h.1, by rw [h3, h4]; exact h.2⟩

lemma inv_setCurrentTtl {s : Sess} (h : Inv s) (x : ℚ) : Inv { s with currentTtl := x } := by
  exact ⟨h.1, h.2⟩

lemma inv_handleStatusUpdate {s : Sess} (h : Inv s) (d : Option StatusResponse) (pc : PopupCfg) :
    Inv (handleStatusUpdate s d pc).1 := by
  cases d with
  | none => simpa [handleStatusUpdate] using h
  | some d =>
      have h1 : Inv (updateQueueStatus s d).1 := inv_updateQueueStatus h d
      simp only [handleStatusUpdate]
      split
      · exact h1
      · split
        · exact inv_toggleNavigation
            (inv_removePopup (inv_startCheckDisconnectedEmission h1)) false
        · split
          · split
            · exact inv_toggleNavigation
                (inv_createPopup (inv_startStatusEmission (inv_setCurrentTtl h1 _) _) _ _) true
            · exact inv_toggleNavigation (inv_createPopup h1 _ _) true
          · split
            · exact inv_clearIntervalOp h1
            · split
              · exact h1
              · exact h1

lemma inv_cleanup {s : Sess} (h : Inv s) : Inv (cleanup s).1 := by
  have h1 : Inv (clearIntervalOp s).1 := inv_clearIntervalOp h
  obtain ⟨hd, hp, -, -, -⟩ := removePopup_spec (clearIntervalOp s).1 h1.2
  have h2 : Inv (removePopup (clearIntervalOp s).1) := inv_removePopup h1
  have h3 : Inv (toggleNavigation (removePopup (clearIntervalOp s).1) false) :=
    inv_toggleNavigation h2 false
  obtain ⟨-, -, dp, -, -⟩ := toggleNavigation_frame (removePopup (clearIntervalOp s).1) false
  refine ⟨?_, ?_⟩
  · simpa [cleanup] using h3.1
  · simp [cleanup, dp, hd]

lemma inv_disconnect {s : Sess} (h : Inv s) : Inv (disconnect s).1 := by
  have h1 : Inv { s with socket := s.socket.map (fun _ => false) } := ⟨h.1, h.2⟩
  simpa [disconnect] using inv_cleanup h1

lemma inv_onConnect {s : Sess} (h : Inv s) : Inv (onConnect s).1 := by
  have h1 : Inv { s with socket := some true } := ⟨h.1, h.2⟩
  exact inv_startStatusEmission (inv_removePopup h1) _

lemma inv_onSocketDisconnect {s : Sess} (h : Inv s) : Inv (onSocketDisconnect s).1 := by
  have h1 : Inv { s with socket := s.socket.map (fun _ => false) } := ⟨h.1, h.2⟩
  exact inv_clearIntervalOp h1

lemma inv_initSess (cfg : InitCfg) : Inv (initSess cfg) := by
  simp only [initSess]
  split
  · have h0 : Inv ({ storageTokenKey := some cfg.storageTokenKey,
                     storageConnectKey := some cfg.storageConnectKey,
                     apiUrl := some cfg.apiUrl } : Sess) := ⟨rfl, rfl⟩
    have h1 := inv_createPopup h0
      (getLoadingPopupContent (cfg.popupCfg.language.getD Lang.ko) cfg.popupCfg) cfg.popupCfg.style
    exact ⟨h1.1, h1.2⟩
  · exact ⟨rfl, rfl⟩

lemma inv_step {s s' : Sess} (h : Inv s) (st : Step s s') : Inv s' := by
  cases st with
  | status d pc => exact inv_handleStatusUpdate h d pc
  | connected => exact inv_onConnect h
  | connectError => exact inv_removePopup h
  | sockDisconnected => exact inv_onSocketDisconnect h
  | discon => exact inv_disconnect h
  | addListener l => exact ⟨h.1, h.2⟩
  | removeListener i => exact ⟨h.1, h.2⟩
  | custCreatePopup html st? => exact inv_createPopup h html st?
  | custRemovePopup => exact inv_removePopup h
  | custPreventNav => exact inv_toggleNavigation h true
  | custAllowNav => exact inv_toggleNavigation h false

lemma inv_reachable {s : Sess} (h : Reachable s) : Inv s := by
  induction h with
  | init cfg => exact inv_initSess cfg
  | step _ st ih => exact inv_step ih st

lemma notifyListeners_all_ok (ls : List Listener) (st : StatusResponse)
    (h : ∀ l ∈ ls, l.ok st = true) :
    notifyListeners ls st = (ls.map fun l => Effect.invoke l.id st, false) := by
  induction ls with
  | nil => simp [notifyListeners]
  | cons a as ih =>
      have ha := h a (by simp)
      have ih' := ih (fun l hl => h l (by simp [hl]))
      simp [notifyListeners, ha, ih']

lemma notifyListeners_first_throw (pre : List Listener) (bad : Listener)
    (post : List Listener) (st : StatusResponse)
    (hpre : ∀ l ∈ pre, l.ok st = true) (hbad : bad.ok st = false) :
    notifyListeners (pre ++ bad :: post) st =
      (pre.map (fun l => Effect.invoke l.id st) ++ [Effect.invoke bad.id st], true) := by
  induction pre with
  | nil => simp [notifyListeners, hbad]
  | cons a as ih =>
      have ha := hpre a (by simp)
      have ih' := ih (fun l hl => hpre l (by simp [hl]))
      simp [notifyListeners, ha, ih']

lemma logWarn_not_mem_notify (ls : List Listener) (st : StatusResponse) (m : String) :
    Effect.logWarn m ∉ (notifyListeners ls st).1 := by
  induction ls with
  | nil => simp [notifyListeners]
  | cons a as ih =>
      by_cases ha : a.ok st <;> simp [notifyListeners, ha, ih]

/-- Recognises a `timerStart` effect. -/
def isTimerStart : Effect → Bool
  | Effect.timerStart _ => true
  | _ => false

/-- Number of `setInterval` calls recorded in an effect list. -/
def countTimerStarts (es : List Effect) : Nat := es.countP isTimerStart

lemma countTimerStarts_notify (ls : List Listener) (st : StatusResponse) :
    countTimerStarts (notifyListeners ls st).1 = 0 := by
  induction ls with
  | nil => simp [notifyListeners, countTimerStarts]
  | cons a as ih =>
      by_cases ha : a.ok st <;>
        simp [notifyListeners, ha, countTimerStarts, isTimerStart, List.countP_cons] at ih ⊢
      exact ih

/-- The fully-reset session: every modelled `ConnectionState` field is
null/false, no interval handle, and the listener registry is empty. -/
def resetOf (s : Sess) : Prop :=
  s.socket = none ∧ s.popupEl = none ∧ s.isNavigating = false ∧
  s.storageTokenKey = none ∧ s.storageConnectKey = none ∧
  s.queueStatus = none ∧ s.apiUrl = none ∧
  s.statusListeners = [] ∧ s.ttlInterval = none

lemma clearIntervalOp_ttl_none (x : Sess) : (clearIntervalOp x).1.ttlInterval = none := by
  cases h : x.ttlInterval <;> simp [clearIntervalOp, h]

lemma resetOf_cleanup (x : Sess) : resetOf (cleanup x).1 := by
  have ht := clearIntervalOp_ttl_none x
  have hrm : (removePopup (clearIntervalOp x).1).ttlInterval = none := by
    cases h : (clearIntervalOp x).1.popupEl <;> simp [removePopup, h, ht]
  have htg : (toggleNavigation (removePopup (clearIntervalOp x).1) false).ttlInterval = none := by
    obtain ⟨-, hti, -, -, -⟩ := toggleNavigation_frame (removePopup (clearIntervalOp x).1) false
    rw [hti, hrm]
  refine ⟨rfl, rfl, rfl, rfl, rfl, rfl, rfl, rfl, ?_⟩
  simpa [cleanup] using htg

lemma disconnect_of_reset {r : Sess} (h : resetOf r) : (disconnect r).1 = r := by
  obtain ⟨h1, h2, h3, h4, h5, h6, h7, h8, h9⟩ := h
  ext1 <;>
    simp [disconnect, cleanup, clearIntervalOp, removePopup, toggleNavigation,
      h1, h2, h3, h4, h5, h6, h7, h8, h9]

/-- An EMPTY status payload (`{uuid:"abc", position:0, status:EMPTY}`). -/
def emptyPayload : StatusResponse := ⟨some "abc", some 0, some EMPTY⟩

/-- C1 (code bug): applying an EMPTY payload to a freshly initialised
session does NOT stop at the one-time notice: because the `EMPTY` case
of the `switch` in `handleStatusUpdate` has no `break`, execution falls
through into the `EXPIRED` case, so a second (timeout) alert is shown
and `window.location.reload()` is triggered — although the README
documents EMPTY as "clears any active intervals, taking no further UI
or navigation actions" and reserves the reload for EXPIRED. -/
theorem c1_empty_falls_through_to_reload :
    (handleStatusUpdate (initSess {}) (some emptyPayload) {}).2.1 =
      [Effect.storageSet "queue_token" "abc",
       Effect.alertMsg (emptyAlertText none),
       Effect.alertMsg (expiredAlertText none),
       Effect.reload] ∧
    Effect.reload ∈ (handleStatusUpdate (initSess {}) (some emptyPayload) {}).2.1 := by
  norm_num [handleStatusUpdate, updateQueueStatus, notifyListeners, initSess, clearIntervalOp,
    createPopup, removePopup, startCheckDisconnectedEmission, toggleNavigation, emptyPayload,
    getAdjustedPollInterval, jsGe, ACTIVE, WAITING, EMPTY, TTL_INTERVAL, MAX_TTL_INTERVAL,
    jsStringOfOpt]

/-- C2 counterexample: for a WAITING position of 150 the code computes
`TTL_INTERVAL + (150/100)*1000 = 3500` ms — JS division is exact, not
floored — which differs both from the claimed floored formula
(`2000 + floor(1.5)*1000 = 3000`) and from the scenario's claimed
2000 ms. -/
theorem c2_interval_counterexample :
    getAdjustedPollInterval (some 150) = 3500 ∧
    getAdjustedPollInterval (some 150) ≠ TTL_INTERVAL + (Int.floor ((150 : ℚ) / 100) : ℚ) * 1000 ∧
    getAdjustedPollInterval (some 150) ≠ 2000 := by
  have hf : (Int.floor ((150 : ℚ) / 100) : ℤ) = 1 := by norm_num
  refine ⟨?_, ?_, ?_⟩ <;>
    norm_num [getAdjustedPollInterval, jsGe, TTL_INTERVAL, MAX_TTL_INTERVAL, hf]

/-- C2 amended: the re-announce interval equals `TTL_INTERVAL` (2000 ms,
not configurable) when position < 100, and otherwise
`TTL_INTERVAL + (position/100)*1000` with exact (non-floored) division,
capped at `MAX_TTL_INTERVAL`; in particular position 150 yields 3500 ms. -/
theorem c2_adjusted_poll_interval (p : ℚ) :
    (p < 100 → getAdjustedPollInterval (some p) = TTL_INTERVAL) ∧
    (100 ≤ p → getAdjustedPollInterval (some p) =
      min (TTL_INTERVAL + p / 100 * 1000) MAX_TTL_INTERVAL) := by
  constructor
  · intro h
    have h' : ¬ (100 : ℚ) ≤ p := not_le.mpr h
    simp only [getAdjustedPollInterval, jsGe, ge_iff_le, decide_eq_true_eq]
    rw [if_neg h']
    rw [if_neg (by norm_num [TTL_INTERVAL, MAX_TTL_INTERVAL])]
  · intro h
    simp only [getAdjustedPollInterval, jsGe, ge_iff_le, decide_eq_true_eq, Option.getD_some]
    rw [if_pos h]
    rcases le_or_lt (TTL_INTERVAL + p / 100 * 1000) MAX_TTL_INTERVAL with hle | hlt
    · rw [if_neg (not_lt.mpr hle)]
      exact (min_eq_left hle).symm
    · rw [if_pos hlt]
      exact (min_eq_right hlt.le).symm

/-- C2 witness: the amended formula evaluated at position 150. -/
theorem c2_adjusted_poll_interval_witness :
    getAdjustedPollInterval (some 150) = min (TTL_INTERVAL + 150 / 100 * 1000) MAX_TTL_INTERVAL :=
  (c2_adjusted_poll_interval 150).2 (by norm_num)

/-- A WAITING payload used in several concrete scenarios. -/
def waitingPayload : StatusResponse := ⟨some "abc", some 1, some WAITING⟩

/-- C4 counterexample: with two registered listeners of which the first
throws, applying a status invokes only the first listener — the
exception is not caught, escapes `updateQueueStatus` (flag `true`), and
the second listener is never invoked. -/
theorem c4_listener_throw_aborts :
    (updateQueueStatus
        { initSess {} with statusListeners := [⟨0, fun _ => false⟩, ⟨1, fun _ => true⟩] }
        waitingPayload).2.2 = true ∧
    Effect.invoke 1 waitingPayload ∉
      (updateQueueStatus
        { initSess {} with statusListeners := [⟨0, fun _ => false⟩, ⟨1, fun _ => true⟩] }
        waitingPayload).2.1 := by
  refine ⟨by simp [updateQueueStatus, notifyListeners, initSess], ?_⟩
  simp [updateQueueStatus, notifyListeners, initSess, jsStringOfOpt]

/-- C4 amended: listeners are invoked with the new status in
registration order, but there is no per-listener isolation: when every
listener returns normally all are invoked; when one throws, the
listeners before it and the thrower itself are invoked and the
remaining listeners are not — the exception escapes uncaught. -/
theorem c4_listeners_in_order_until_throw (ls pre post : List Listener) (bad : Listener)
    (st : StatusResponse) :
    ((∀ l ∈ ls, l.ok st = true) →
      notifyListeners ls st = (ls.map fun l => Effect.invoke l.id st, false)) ∧
    ((∀ l ∈ pre, l.ok st = true) → bad.ok st = false →
      notifyListeners (pre ++ bad :: post) st =
        (pre.map (fun l => Effect.invoke l.id st) ++ [Effect.invoke bad.id st], true)) :=
  ⟨notifyListeners_all_ok ls st, notifyListeners_first_throw pre bad post st⟩

/-- C4 witness: three listeners, the middle one throwing — exactly the
first two are invoked, in order, and the exception escapes. -/
theorem c4_listeners_witness :
    notifyListeners [⟨0, fun _ => true⟩, ⟨1, fun _ => false⟩, ⟨2, fun _ => true⟩] waitingPayload =
      ([Effect.invoke 0 waitingPayload, Effect.invoke 1 waitingPayload], true) := by
  have h := (c4_listeners_in_order_until_throw [] [⟨0, fun _ => true⟩] [⟨2, fun _ => true⟩]
      ⟨1, fun _ => false⟩ waitingPayload).2 (by simp) (by simp)
  simpa using h

/-- C5 counterexample: with a newer status (position 5) already applied,
applying an older, delayed status (position 120) simply overwrites it:
there is no timestamp or sequence guard anywhere in the code. -/
theorem c5_no_out_of_order_guard :
    (updateQueueStatus
        { initSess {} with queueStatus := some ⟨some "abc", some 5, some WAITING⟩ }
        ⟨some "abc", some 120, some WAITING⟩).1.queueStatus =
      some ⟨some "abc", some 120, some WAITING⟩ ∧
    (⟨some "abc", some 120, some WAITING⟩ : StatusResponse) ≠ ⟨some "abc", some 5, some WAITING⟩ := by
  norm_num [updateQueueStatus]

/-- C5 amended: `updateQueueStatus` overwrites the stored status
unconditionally — the canonical status is simply the last one applied,
even if it resolved out of order; no guard exists. -/
theorem c5_last_applied_wins (s : Sess) (d : StatusResponse) :
    (updateQueueStatus s d).1.queueStatus = some d := by
  simp [updateQueueStatus]

lemma clearIntervalOp_queueStatus (s : Sess) :
    (clearIntervalOp s).1.queueStatus = s.queueStatus := by
  cases h : s.ttlInterval <;> simp [clearIntervalOp, h]

lemma removePopup_queueStatus (s : Sess) :
    (removePopup s).queueStatus = s.queueStatus := by
  cases h : s.popupEl <;> simp [removePopup, h]

lemma createPopup_queueStatus (s : Sess) (html : String) (st? : Option String) :
    (createPopup s html st?).queueStatus = s.queueStatus := by
  simp [createPopup, removePopup_queueStatus]

lemma startStatusEmission_queueStatus (s : Sess) (i : ℚ) :
    (startStatusEmission s i).1.queueStatus = s.queueStatus := by
  simp [startStatusEmission, clearIntervalOp_queueStatus]

lemma startCheck_queueStatus (s : Sess) :
    (startCheckDisconnectedEmission s).1.queueStatus = s.queueStatus := by
  simp [startCheckDisconnectedEmission, clearIntervalOp_queueStatus]

lemma toggleNavigation_queueStatus (s : Sess) (b : Bool) :
    (toggleNavigation s b).queueStatus = s.queueStatus := by
  unfold toggleNavigation
  split <;> simp

lemma handleStatusUpdate_queueStatus (s : Sess) (d : StatusResponse) (pc : PopupCfg) :
    (handleStatusUpdate s (some d) pc).1.queueStatus = some d := by
  obtain ⟨-, -, -, -, -, -, -, -, -, hq⟩ := updateQueueStatus_frame s d
  simp only [handleStatusUpdate]
  split
  · exact hq
  · split
    · rw [toggleNavigation_queueStatus, removePopup_queueStatus, startCheck_queueStatus]
      exact hq
    · split
      · rw [toggleNavigation_queueStatus, createPopup_queueStatus]
        split
        · rw [startStatusEmission_queueStatus]
          exact hq
        · exact hq
      · split
        · rw [clearIntervalOp_queueStatus]
          exact hq
        · split
          · exact hq
          · exact hq

lemma logWarn_not_mem_update (s : Sess) (d : StatusResponse) (m : String) :
    Effect.logWarn m ∉ (updateQueueStatus s d).2.1 := by
  cases hk : s.storageTokenKey <;>
    simp [updateQueueStatus, hk, logWarn_not_mem_notify]

lemma logWarn_not_mem_clear (s : Sess) (m : String) :
    Effect.logWarn m ∉ (clearIntervalOp s).2 := by
  cases h : s.ttlInterval <;> simp [clearIntervalOp, h]

lemma logWarn_not_mem_startStatus (s : Sess) (i : ℚ) (m : String) :
    Effect.logWarn m ∉ (startStatusEmission s i).2 := by
  simp [startStatusEmission, logWarn_not_mem_clear]

lemma logWarn_not_mem_startCheck (s : Sess) (m : String) :
    Effect.logWarn m ∉ (startCheckDisconnectedEmission s).2 := by
  simp [startCheckDisconnectedEmission, logWarn_not_mem_clear]

/-- C3 counterexample: the guard in `handleStatusUpdate` is only
`if (!data)`, so the payload `{}` (all fields undefined) is accepted: it
DOES overwrite the stored status, emits no warning, and — because the
undefined status matches the `case OnlineQueueStatus.EXPIRED`
comparison (the enum has no EXPIRED member) — even shows an alert and
triggers a page reload. -/
theorem c3_empty_object_not_validated :
    (handleStatusUpdate { initSess {} with queueStatus := some waitingPayload }
        (some ⟨none, none, none⟩) {}).1.queueStatus = some ⟨none, none, none⟩ ∧
    Effect.reload ∈ (handleStatusUpdate { initSess {} with queueStatus := some waitingPayload }
        (some ⟨none, none, none⟩) {}).2.1 ∧
    Effect.logWarn "Invalid status response received" ∉
      (handleStatusUpdate { initSess {} with queueStatus := some waitingPayload }
        (some ⟨none, none, none⟩) {}).2.1 := by
  simp [handleStatusUpdate, updateQueueStatus, notifyListeners, initSess,
    jsStringOfOpt, ACTIVE, WAITING, EMPTY]

/-- C3 amended: only `null`/`undefined` input is rejected (state
untouched, exactly one warning, no exception); any non-null payload —
fields present or not — is applied without validation: it overwrites the
stored queue status and never produces the warning. -/
theorem c3_null_guard_only (s : Sess) (pc : PopupCfg) :
    handleStatusUpdate s none pc =
      (s, ([Effect.logWarn "Invalid status response received"], false)) ∧
    ∀ d : StatusResponse,
      (handleStatusUpdate s (some d) pc).1.queueStatus = some d ∧
      Effect.logWarn "Invalid status response received" ∉
        (handleStatusUpdate s (some d) pc).2.1 := by
  refine ⟨rfl, fun d => ⟨handleStatusUpdate_queueStatus s d pc, ?_⟩⟩
  simp only [handleStatusUpdate]
  split
  · exact logWarn_not_mem_update s d _
  · split
    · simp [logWarn_not_mem_update s d, logWarn_not_mem_startCheck]
    · split
      · split
        · simp [logWarn_not_mem_update s d, logWarn_not_mem_startStatus]
        · simp [logWarn_not_mem_update s d]
      · split
        · simp [logWarn_not_mem_update s d, logWarn_not_mem_clear]
        · split
          · simp [logWarn_not_mem_update s d]
          · simp [logWarn_not_mem_update s d]

/-- Recognises a leave beacon effect. -/
def isBeacon : Effect → Bool
  | Effect.beacon _ _ => true
  | _ => false

/-- A session holding a uuid and a configured leave endpoint whose
socket exists but is not connected. -/
def c6Sess : Sess :=
  { initSess { apiUrl := "https://api.example.com" } with
      queueStatus := some ⟨some "u", some 1, some ACTIVE⟩ }

/-- C6 counterexample: a current uuid exists and `apiUrl` is configured,
yet `disconnect()` fires no leave beacon, because the guard in
`disconnect` additionally requires `socket?.connected` — and this
session's socket is not connected. -/
theorem c6_no_beacon_when_disconnected :
    jsTruthyStr c6Sess.apiUrl = true ∧
    jsTruthyStr (c6Sess.queueStatus.bind fun q => q.uuid) = true ∧
    (disconnect c6Sess).2.countP isBeacon = 0 := by
  refine ⟨rfl, rfl, ?_⟩
  norm_num [disconnect, cleanup, clearIntervalOp, removePopup, toggleNavigation,
    sendLeaveRequest, jsTruthyStr, c6Sess, initSess, isBeacon, List.countP_cons]

/-- C6 amended: when the socket is connected AND a truthy uuid AND a
truthy `apiUrl` are present, `disconnect()` fires the leave beacon
carrying that uuid as its very first effect — before the socket close
and before the session reset erases the uuid (the final state's
`queueStatus` is `none`). -/
theorem c6_leave_beacon (s : Sess) (u a : String)
    (hs : s.socket = some true)
    (hu : s.queueStatus.bind (fun q => q.uuid) = some u) (hu' : u ≠ "")
    (ha : s.apiUrl = some a) (ha' : a ≠ "") :
    (disconnect s).2.head? = some (Effect.beacon (a ++ "/leave") u) ∧
    (disconnect s).1.queueStatus = none := by
  constructor
  · simp [disconnect, sendLeaveRequest, jsTruthyStr, hs, hu, ha, hu', ha']
  · simp [disconnect, cleanup]

/-- A connected session with uuid "u" and api url "https://x". -/
def c6wSess : Sess :=
  { initSess { apiUrl := "https://x" } with
      socket := some true
      queueStatus := some ⟨some "u", some 1, some ACTIVE⟩ }

/-- C6 witness: the amended statement at a concrete connected session. -/
theorem c6_leave_beacon_witness :
    (disconnect c6wSess).2.head? = some (Effect.beacon ("https://x" ++ "/leave") "u") ∧
    (disconnect c6wSess).1.queueStatus = none :=
  c6_leave_beacon c6wSess "u" "https://x" (by rfl) (by rfl) (by decide) (by rfl) (by decide)

/-- C8: `disconnect()` is idempotent and safe: after any call the
session is fully reset (every modelled `ConnectionState` field
null/false, no interval handle, listener registry empty), and a second
consecutive call is a no-op that returns the very same reset state (the
model is total — no operation of `disconnect`/`cleanup` can throw). -/
theorem c8_disconnect_idempotent (s : Sess) :
    resetOf (disconnect s).1 ∧ (disconnect (disconnect s).1).1 = (disconnect s).1 := by
  have h : resetOf (disconnect s).1 := by
    have h0 := resetOf_cleanup { s with socket := s.socket.map (fun _ => false) }
    simpa [disconnect] using h0
  exact ⟨h, disconnect_of_reset h⟩

/-- A status payload whose numeric discriminant 4 is not any enum
member (the spec's EXPIRED would use 4). -/
def unknownPayload : StatusResponse := ⟨some "abc", some 7, some 4⟩

/-- C10: a payload whose status is a number other than 1, 2, 3 (and not
undefined) is accepted into the session: the stored status is replaced,
the uuid is persisted, every listener is notified in order — and
nothing else happens: popup, navigation flags, timers, the
`currentTtlInterval` cell and the page are untouched (the effect list
contains only the storage write and the listener invocations — no
alert, no reload, no timer operation). -/
theorem c10_unknown_status_accepted (s : Sess) (pc : PopupCfg) (d : StatusResponse)
    (q : ℚ) (k : String)
    (hst : d.status = some q) (h1 : q ≠ WAITING) (h2 : q ≠ ACTIVE) (h3 : q ≠ EMPTY)
    (hk : s.storageTokenKey = some k)
    (hok : ∀ l ∈ s.statusListeners, l.ok d = true) :
    (handleStatusUpdate s (some d) pc).1 = { s with queueStatus := some d } ∧
    (handleStatusUpdate s (some d) pc).2.1 =
      Effect.storageSet k (jsStringOfOpt d.uuid) ::
        (s.statusListeners.map fun l => Effect.invoke l.id d) ∧
    (handleStatusUpdate s (some d) pc).2.2 = false := by
  have hnot := notifyListeners_all_ok s.statusListeners d hok
  simp [handleStatusUpdate, updateQueueStatus, hk, hnot, hst, h1, h2, h3]

/-- An initialised session with one well-behaved listener. -/
def c10Sess : Sess := { initSess {} with statusListeners := [⟨0, fun _ => true⟩] }

/-- C10 witness: the unknown status 4 applied to an initialised session
with one (well-behaved) listener. -/
theorem c10_unknown_status_witness :
    (handleStatusUpdate c10Sess (some unknownPayload) {}).1 =
      { c10Sess with queueStatus := some unknownPayload } ∧
    (handleStatusUpdate c10Sess (some unknownPayload) {}).2.1 =
      Effect.storageSet "queue_token" (jsStringOfOpt unknownPayload.uuid) ::
        (c10Sess.statusListeners.map fun l => Effect.invoke l.id unknownPayload) ∧
    (handleStatusUpdate c10Sess (some unknownPayload) {}).2.2 = false :=
  c10_unknown_status_accepted c10Sess {} unknownPayload 4 "queue_token" (by rfl)
    (by norm_num [WAITING]) (by norm_num [ACTIVE]) (by norm_num [EMPTY]) (by rfl)
    (by simp [c10Sess])

lemma countTimerStarts_append (a b : List Effect) :
    countTimerStarts (a ++ b) = countTimerStarts a + countTimerStarts b :=
  List.countP_append _ _ _

lemma countTimerStarts_clear (s : Sess) : countTimerStarts (clearIntervalOp s).2 = 0 := by
  cases h : s.ttlInterval <;> simp [clearIntervalOp, h, countTimerStarts, isTimerStart]

lemma countTimerStarts_update (s : Sess) (d : StatusResponse) :
    countTimerStarts (updateQueueStatus s d).2.1 = 0 := by
  have hn := countTimerStarts_notify s.statusListeners d
  cases hk : s.storageTokenKey with
  | none =>
      simp only [updateQueueStatus, hk]
      rw [countTimerStarts_append, hn]
      simp [countTimerStarts]
  | some k =>
      simp only [updateQueueStatus, hk]
      rw [countTimerStarts_append, hn]
      simp [countTimerStarts, isTimerStart]

lemma removePopup_timers (s : Sess) :
    (removePopup s).activeTimers = s.activeTimers ∧
    (removePopup s).ttlInterval = s.ttlInterval := by
  cases h : s.popupEl <;> simp [removePopup, h]

lemma createPopup_timers (s : Sess) (html : String) (st? : Option String) :
    (createPopup s html st?).activeTimers = s.activeTimers ∧
    (createPopup s html st?).ttlInterval = s.ttlInterval := by
  simp [createPopup, (removePopup_timers s).1, (removePopup_timers s).2]

/-- Reduction of `handleStatusUpdate` on a WAITING payload when no
listener throws. -/
lemma handleStatusUpdate_waiting (s : Sess) (d : StatusResponse) (pc : PopupCfg)
    (hst : d.status = some WAITING)
    (hok : ∀ l ∈ s.statusListeners, l.ok d = true) :
    handleStatusUpdate s (some d) pc =
      (let s1 : Sess := { s with queueStatus := some d }
       let newTtl := getAdjustedPollInterval d.position
       let r := if newTtl ≠ s.currentTtl then
           startStatusEmission { s1 with currentTtl := newTtl } newTtl else (s1, [])
       let content := match pc.content with
         | some (ContentSpec.fn f) => f d.position
         | some (ContentSpec.str c) => c
         | none => getDefaultPopupContent d.position (pc.language.getD Lang.ko) pc
       (toggleNavigation (createPopup r.1 content pc.style) true,
        ((updateQueueStatus s d).2.1 ++ r.2, false))) := by
  have hnot := notifyListeners_all_ok s.statusListeners d hok
  have hWA : WAITING ≠ ACTIVE := by norm_num [WAITING, ACTIVE]
  simp [handleStatusUpdate, updateQueueStatus, hnot, hst, hWA]

/-- C7: at most one periodic timer ever runs.  At every reachable state
the scheduled-interval list has length at most 1; on a WAITING update
the timer is restarted only when the computed interval differs from the
`currentTtlInterval` cell (same interval: timers untouched, zero
`setInterval` calls), and when it differs the old timer is removed and
exactly one new `online-queue:status` timer at the new interval is
scheduled (exactly one `setInterval` call) — so a position change
across the 100-boundary restarts the timer exactly once and two timers
never coexist. -/
theorem c7_single_timer (s : Sess) (hR : Reachable s) :
    s.activeTimers.length ≤ 1 ∧
    ∀ d : StatusResponse, ∀ pc : PopupCfg, d.status = some WAITING →
      (∀ l ∈ s.statusListeners, l.ok d = true) →
      ((getAdjustedPollInterval d.position = s.currentTtl →
          (handleStatusUpdate s (some d) pc).1.activeTimers = s.activeTimers ∧
          (handleStatusUpdate s (some d) pc).1.ttlInterval = s.ttlInterval ∧
          countTimerStarts (handleStatusUpdate s (some d) pc).2.1 = 0) ∧
       (getAdjustedPollInterval d.position ≠ s.currentTtl →
          (handleStatusUpdate s (some d) pc).1.activeTimers =
            [⟨s.nextTimerId, TimerKind.statusEmission, getAdjustedPollInterval d.position⟩] ∧
          (handleStatusUpdate s (some d) pc).1.activeTimers.length ≤ 1 ∧
          countTimerStarts (handleStatusUpdate s (some d) pc).2.1 = 1)) := by
  have hInv := inv_reachable hR
  constructor
  · rw [hInv.1]
    cases s.ttlInterval <;> simp
  · intro d pc hst hok
    rw [handleStatusUpdate_waiting s d pc hst hok]
    constructor
    · intro hI
      simp only [ne_eq, hI, not_true_eq_false, if_false]
      refine ⟨?_, ?_, ?_⟩
      · rw [(toggleNavigation_frame _ true).1, (createPopup_timers _ _ _).1]
      · rw [(toggleNavigation_frame _ true).2.1, (createPopup_timers _ _ _).2]
      · simp [countTimerStarts_append, countTimerStarts_update]
    · intro hI
      simp only [ne_eq, hI, not_false_eq_true, if_true]
      obtain ⟨ha, ht, -, -⟩ := startStatusEmission_spec { s with queueStatus := some d, currentTtl := getAdjustedPollInterval d.position } (getAdjustedPollInterval d.position) hInv.1
      refine ⟨?_, ?_, ?_⟩
      · rw [(toggleNavigation_frame _ true).1, (createPopup_timers _ _ _).1]
        exact ha
      · rw [(toggleNavigation_frame _ true).1, (createPopup_timers _ _ _).1, ha]
        simp
      · have h1 := countTimerStarts_update s d
        have h2 := countTimerStarts_clear { s with queueStatus := some d, currentTtl := getAdjustedPollInterval d.position }
        simp only [countTimerStarts] at h1 h2
        simp only [startStatusEmission, countTimerStarts_append, countTimerStarts,
          List.countP_append, h1, h2]
        simp [isTimerStart]

/-- C9: at most one blocking-overlay DOM node ever exists.  At every
reachable state the DOM holds at most one popup node, and applying a
WAITING status always yields exactly one popup node in the DOM (the
tracked one): `createPopup` removes the previous overlay before
appending the new one, so two overlay nodes never coexist. -/
theorem c9_single_popup (s : Sess) (hR : Reachable s) :
    s.domPopups.length ≤ 1 ∧
    ∀ d : StatusResponse, ∀ pc : PopupCfg, d.status = some WAITING →
      (∀ l ∈ s.statusListeners, l.ok d = true) →
      ∃ node : PopupNode,
        (handleStatusUpdate s (some d) pc).1.domPopups = [node] ∧
        (handleStatusUpdate s (some d) pc).1.popupEl = some node := by
  have hInv := inv_reachable hR
  constructor
  · rw [hInv.2]
    cases s.popupEl <;> simp
  · intro d pc hst hok
    rw [handleStatusUpdate_waiting s d pc hst hok]
    by_cases hI : getAdjustedPollInterval d.position = s.currentTtl
    · simp only [ne_eq, hI, not_true_eq_false, if_false]
      obtain ⟨h1, h2, -, -⟩ := createPopup_spec { s with queueStatus := some d }
        (match pc.content with
          | some (ContentSpec.fn f) => f d.position
          | some (ContentSpec.str c) => c
          | none => getDefaultPopupContent d.position (pc.language.getD Lang.ko) pc)
        pc.style hInv.2
      exact ⟨_, by rw [(toggleNavigation_frame _ true).2.2.1]; exact h1,
        by rw [(toggleNavigation_frame _ true).2.2.2.1]; exact h2⟩
    · simp only [ne_eq, hI, not_false_eq_true, if_true]
      obtain ⟨-, -, hd, hp⟩ := startStatusEmission_spec { s with queueStatus := some d, currentTtl := getAdjustedPollInterval d.position } (getAdjustedPollInterval d.position) hInv.1
      have hdom : (startStatusEmission { s with queueStatus := some d, currentTtl := getAdjustedPollInterval d.position } (getAdjustedPollInterval d.position)).1.domPopups = (startStatusEmission { s with queueStatus := some d, currentTtl := getAdjustedPollInterval d.position } (getAdjustedPollInterval d.position)).1.popupEl.toList := by
        rw [hd, hp]
        exact hInv.2
      obtain ⟨h1, h2, -, -⟩ := createPopup_spec _
        (match pc.content with
          | some (ContentSpec.fn f) => f d.position
          | some (ContentSpec.str c) => c
          | none => getDefaultPopupContent d.position (pc.language.getD Lang.ko) pc)
        pc.style hdom
      exact ⟨_, by rw [(toggleNavigation_frame _ true).2.2.1]; exact h1,
        by rw [(toggleNavigation_frame _ true).2.2.2.1]; exact h2⟩

/-- A WAITING payload at position 150 (interval differs from the
initial 2000 ms). -/
def waiting150 : StatusResponse := ⟨some "abc", some 150, some WAITING⟩

/-- C7 witness: from the freshly initialised session, the WAITING
update at position 150 restarts the timer exactly once and leaves
exactly the single fresh 3500 ms timer running. -/
theorem c7_single_timer_witness :
    (handleStatusUpdate (initSess {}) (some waiting150) {}).1.activeTimers =
      [⟨(initSess {}).nextTimerId, TimerKind.statusEmission, getAdjustedPollInterval (some 150)⟩] ∧
    countTimerStarts (handleStatusUpdate (initSess {}) (some waiting150) {}).2.1 = 1 := by
  have h := ((c7_single_timer (initSess {}) (Reachable.init {})).2 waiting150 {}
      (by rfl) (by simp [initSess])).2
      (by norm_num [initSess, waiting150, getAdjustedPollInterval, jsGe, TTL_INTERVAL,
        MAX_TTL_INTERVAL])
  exact ⟨h.1, h.2.2⟩

/-- C9 witness: from the freshly initialised session, the WAITING
update at position 150 leaves exactly one popup node in the DOM. -/
theorem c9_single_popup_witness :
    ∃ node : PopupNode,
      (handleStatusUpdate (initSess {}) (some waiting150) {}).1.domPopups = [node] ∧
      (handleStatusUpdate (initSess {}) (some waiting150) {}).1.popupEl = some node :=
  (c9_single_popup (initSess {}) (Reachable.init {})).2 waiting150 {}
    (by rfl) (by simp [initSess])

end JQueueSdk
